import Mathlib

/-!
# GitSage core layer: a shallow embedding with proofs

This file embeds, in Lean 4, the security-relevant core of the GitSage
source tree (command-safety whitelist, input validators, porcelain status
parser, commit-log argument construction, repository path resolution and
the git-runner outcome mapping), and proves or refutes the specification
claims about it.

Conventions:
* Python strings are modelled as Lean `String` (a list of unicode code
  points, matching Python's code-point view; `len` is `String.length`).
* Python string helpers (`str.strip`, `str.splitlines`, `str.split`,
  `int(...)`, the `in` substring test) are embedded as `py...` functions
  below, restricted where noted to the character sets that can actually
  occur in this program's data.
* Fallible Python code (statements that can raise) is embedded as
  `Except`-valued functions; the error payloads are short descriptive
  strings standing for the raised exception.
-/

/-! ## Python string primitives -/

/-- Python's whitespace set (`str.isspace`, `str.strip()` with no argument,
`str.split()` with no argument, and the `re` module's `\s` class all use
this set, `Py_UNICODE_ISSPACE`): ASCII whitespace, the C1 controls
NEL and NBSP, and the Unicode space separators. -/
def pyIsSpace (c : Char) : Bool :=
  c = ' ' || c = '\t' || c = '\n' || c = '\x0b' || c = '\x0c' || c = '\r' ||
  c = '\x1c' || c = '\x1d' || c = '\x1e' || c = '\x1f' || c = '\x85' ||
  c = '\xa0' || c = '\u1680' || ('\u2000' ≤ c && c ≤ '\u200a') ||
  c = '\u2028' || c = '\u2029' || c = '\u202f' || c = '\u205f' || c = '\u3000'

/-- `l` with leading and trailing characters satisfying `p` removed
(the list form of Python's `str.strip()`). -/
def stripList (p : Char → Bool) (l : List Char) : List Char :=
  ((l.dropWhile p).reverse.dropWhile p).reverse

/-- Python `s.strip()`: remove leading and trailing whitespace. -/
def pyStrip (s : String) : String :=
  String.mk (stripList pyIsSpace s.data)

/-- The line-boundary characters of Python's `str.splitlines`
(`\r\n` is additionally treated as a single boundary). -/
def pyIsLineBreak (c : Char) : Bool :=
  c = '\n' || c = '\r' || c = '\x0b' || c = '\x0c' || c = '\x1c' ||
  c = '\x1d' || c = '\x1e' || c = '\x85' || c = '\u2028' || c = '\u2029'

/-- Worker for `pySplitlines`: `acc` holds the current line, reversed. -/
def pySplitlinesAux : List Char → List Char → List String
  | [], acc => if acc.isEmpty then [] else [String.mk acc.reverse]
  | '\r' :: '\n' :: rest, acc => String.mk acc.reverse :: pySplitlinesAux rest []
  | c :: rest, acc =>
    if pyIsLineBreak c then String.mk acc.reverse :: pySplitlinesAux rest []
    else pySplitlinesAux rest (c :: acc)

/-- Python `s.splitlines()`: split at line boundaries, which are consumed;
a trailing boundary produces no trailing empty line; `"".splitlines() = []`. -/
def pySplitlines (s : String) : List String :=
  pySplitlinesAux s.data []

/-- Worker for `pySplitWs`: maximal runs of non-whitespace characters. -/
def pySplitWsAux : List Char → List Char → List String
  | [], acc => if acc.isEmpty then [] else [String.mk acc.reverse]
  | c :: rest, acc =>
    if pyIsSpace c then
      if acc.isEmpty then pySplitWsAux rest []
      else String.mk acc.reverse :: pySplitWsAux rest []
    else pySplitWsAux rest (c :: acc)

/-- Python `s.split()` with no argument: split on runs of whitespace,
discarding empty pieces. -/
def pySplitWs (s : String) : List String :=
  pySplitWsAux s.data []

/-- The Python substring test `pat in s`, on character lists:
true when `pat` occurs contiguously in `s` (the empty pattern occurs
in every string). -/
def listContainsSub (s pat : List Char) : Bool :=
  match s with
  | [] => pat.isEmpty
  | _ :: t => pat.isPrefixOf s || listContainsSub t pat

/-- The Python substring test `pat in s` for strings. -/
def pyContains (s pat : String) : Bool :=
  listContainsSub s.data pat.data

/-- Python `s.startswith(pre)`. -/
def pyStartsWith (s pre : String) : Bool :=
  pre.data.isPrefixOf s.data

/-- Python `s[n:]`: drop the first `n` code points. -/
def pyDrop (s : String) (n : Nat) : String :=
  String.mk (s.data.drop n)

/-- Worker for `pySplit`: split `cs` at each occurrence of the nonempty
separator `sep`, scanning left to right; `acc` holds the current piece,
reversed.  Each step consumes at least one character, so `fuel`
structurally bounds the recursion; with `fuel ≥ cs.length` the
fuel-exhausted branch is never taken. -/
def pySplitSepAux (sep : List Char) : Nat → List Char → List Char → List (List Char)
  | 0, cs, acc => [acc.reverse ++ cs]  -- unreachable when fuel ≥ cs.length
  | fuel + 1, cs, acc =>
    match cs with
    | [] => [acc.reverse]
    | c :: rest =>
      if sep.isPrefixOf cs then
        acc.reverse :: pySplitSepAux sep fuel (cs.drop sep.length) []
      else pySplitSepAux sep fuel rest (c :: acc)

/-- Python `s.split(sep)` for a nonempty separator: split at every
non-overlapping occurrence, scanning left to right; always returns at
least one piece. -/
def pySplit (s sep : String) : List String :=
  match sep.data with
  | [] => [s]  -- unreachable here: Python raises on an empty separator
  | _ :: _ => (pySplitSepAux sep.data s.data.length s.data []).map String.mk

/-- Python `sep.join(xs)`. -/
def pyJoin (sep : String) (xs : List String) : String :=
  String.mk (List.intercalate sep.data (xs.map String.data))

/-- Digit run acceptor for `pyInt`: Python integer literals passed to
`int(...)` may contain single underscores between digits.  `lastDigit`
records whether the previous character was a digit (so an underscore is
legal and so that the run may end). -/
def pyIntDigitsAux : List Char → Nat → Bool → Option Nat
  | [], acc, lastDigit => if lastDigit then some acc else none
  | c :: rest, acc, lastDigit =>
    if c.isDigit then pyIntDigitsAux rest (acc * 10 + (c.toNat - '0'.toNat)) true
    else if c = '_' && lastDigit then pyIntDigitsAux rest acc false
    else none

/-- Python `int(s)` on decimal text: surrounding whitespace is ignored, an
optional single `+`/`-` sign is allowed, then a nonempty digit run (with
single underscores between digits); anything else raises `ValueError`,
modelled as `none`.  Non-ASCII decimal digits are not modelled: none occur
in the porcelain output this program parses. -/
def pyInt (s : String) : Option Int :=
  match (pyStrip s).data with
  | '+' :: ds => (pyIntDigitsAux ds 0 false).map (fun n => (n : Int))
  | '-' :: ds => (pyIntDigitsAux ds 0 false).map (fun n => -(n : Int))
  | ds => (pyIntDigitsAux ds 0 false).map (fun n => (n : Int))

/-! ## Input validators (src/app/services/commit_service.py) -/

/-- `commit_service._sanitize_commit_message`'s removal class
`[\x00-\x08\x0b-\x1f\x7f]`: ASCII control characters except newline
(`\x0a`) and tab (`\x09`). -/
def isStrippedCtrl (c : Char) : Bool :=
  c ≤ '\x08' || ('\x0b' ≤ c && c ≤ '\x1f') || c = '\x7f'

/-- `commit_service._sanitize_commit_message`: delete the control
characters of `isStrippedCtrl`, then strip surrounding whitespace. -/
def _sanitize_commit_message (message : String) : String :=
  pyStrip (String.mk (message.data.filter (fun c => !(isStrippedCtrl c))))

/-- The `forbidden` substring list of `commit_service._is_valid_ref_name`. -/
def refForbiddenSubstrings : List String :=
  [" ", "\t", "\n", "\x00", "\\", "..", "~", "^", ":", "?", "*", "["]

/-- `commit_service._is_valid_ref_name`: reject empty names, names longer
than 250 characters, names containing one of the forbidden substrings, and
names starting with `-`. -/
def _is_valid_ref_name (name : String) : Bool :=
  if name = "" ∨ name.length > 250 then false
  else
    !(refForbiddenSubstrings.any (fun c => pyContains name c)) &&
      !(pyStartsWith name "-")

/-- The spec's "ordinary form" alphabet for ref names (claim C3's
acceptance side): letters, digits, `/`, `-`, `_`.  This definition follows
the specification's words, for comparison with the source-derived
validator. -/
def ordinaryRefChar (c : Char) : Bool :=
  c.isAlphanum || c = '/' || c = '-' || c = '_'

/-! ## Command-safety whitelist (src/app/services/ai_service.py)

The nine safe-auto-fix patterns are regular expressions built only from
literal text, the classes `\s` and `\S` under `+`, and optional groups.
They are embedded as values of a small regex type `Rx`, with a
backtracking matcher whose Boolean result coincides with the regex
language; `re.fullmatch` is matching with the empty-remainder
continuation. -/

/-- The regex fragment type needed for `_SAFE_AUTO_FIX_PATTERNS`:
literal text, one-or-more of a character class, concatenation, and an
optional group. -/
inductive Rx where
  | lit : String → Rx
  | plus : (Char → Bool) → Rx
  | seq : Rx → Rx → Rx
  | opt : Rx → Rx

/-- Match one or more characters of class `p` at the front of `cs`, then
the continuation `k` on the remainder (all split points are tried). -/
def rxMatchPlus (p : Char → Bool) (cs : List Char) (k : List Char → Bool) : Bool :=
  match cs with
  | [] => false
  | c :: rest => p c && (k rest || rxMatchPlus p rest k)

/-- Continuation-passing regex matcher: does some split of `cs` into a
part matched by `r` and a remainder accepted by `k` exist? -/
def rxMatch : Rx → List Char → (List Char → Bool) → Bool
  | .lit s, cs, k => s.data.isPrefixOf cs && k (cs.drop s.length)
  | .plus p, cs, k => rxMatchPlus p cs k
  | .seq a b, cs, k => rxMatch a cs (fun rest => rxMatch b rest k)
  | .opt a, cs, k => k cs || rxMatch a cs k

/-- Python `re.fullmatch(pattern, s)` as a Boolean: the whole of `s` is
matched (the continuation demands an empty remainder). -/
def reFullmatch (r : Rx) (s : String) : Bool :=
  rxMatch r s.data List.isEmpty

/-- The class `\S`: any character that is not whitespace. -/
def pyNonSpace (c : Char) : Bool := !(pyIsSpace c)

/-- `ai_service._SAFE_AUTO_FIX_PATTERNS`, pattern by pattern. -/
def _SAFE_AUTO_FIX_PATTERNS : List Rx :=
  [ -- r"^git fetch(\s+\S+)?$"
    .seq (.lit "git fetch")
      (.opt (.seq (.plus pyIsSpace) (.plus pyNonSpace))),
    -- r"^git pull(\s+--rebase)?(\s+\S+\s+\S+)?$"
    .seq (.lit "git pull")
      (.seq (.opt (.seq (.plus pyIsSpace) (.lit "--rebase")))
        (.opt (.seq (.plus pyIsSpace)
          (.seq (.plus pyNonSpace) (.seq (.plus pyIsSpace) (.plus pyNonSpace)))))),
    -- r"^git stash( pop)?$"
    .seq (.lit "git stash") (.opt (.lit " pop")),
    -- r"^git checkout -- \.$"
    .lit "git checkout -- .",
    -- r"^git merge --abort$"
    .lit "git merge --abort",
    -- r"^git rebase --abort$"
    .lit "git rebase --abort",
    -- r"^git cherry-pick --abort$"
    .lit "git cherry-pick --abort",
    -- r"^git reset HEAD~1$"
    .lit "git reset HEAD~1",
    -- r"^git restore --staged \.$"
    .lit "git restore --staged ." ]

/-- `ai_service._is_safe_auto_fix`: the stripped candidate fully matches
one of the fixed patterns. -/
def _is_safe_auto_fix (cmd : String) : Bool :=
  _SAFE_AUTO_FIX_PATTERNS.any (fun pattern => reFullmatch pattern (pyStrip cmd))

/-! ## AI error diagnosis post-processing (src/app/services/ai_service.py)

`diagnose_error` calls the LLM and then deterministically post-processes
the returned text (lines 119-145 of ai_service.py); the network call is
outside the embedding, so the post-processing is embedded as a pure
function of the raw response text. -/

/-- The result record of `ai_service.diagnose_error`. -/
structure Diagnosis where
  explanation : String
  steps : List String
  auto_fix : Option String
deriving Repr, DecidableEq

/-- One iteration of the scan over `raw.splitlines()` in
`diagnose_error`: lines starting
with `AUTO_FIX:` are withheld from `clean_lines`, and the candidate after
the marker (stripped) replaces `auto_fix` only when it passes
`_is_safe_auto_fix`. -/
def diagStep (st : Option String × List String) (line : String) :
    Option String × List String :=
  if pyStartsWith line "AUTO_FIX:" then
    let auto_fix_candidate := pyStrip (pyDrop line "AUTO_FIX:".length)
    (if _is_safe_auto_fix auto_fix_candidate then some auto_fix_candidate
     else st.1, st.2)
  else (st.1, st.2 ++ [line])

/-- The whole scan, starting from no auto-fix and no clean lines. -/
def diagScan (lines : List String) : Option String × List String :=
  lines.foldl diagStep (none, [])

/-- Python `s.split(sep, 1)` for a nonempty separator: split at the first
occurrence only; `none` when the separator does not occur. -/
def pySplitOnce (sep : String) (s : String) : String × Option String :=
  match pySplit s sep with
  | [] => (s, none)
  | [_] => (s, none)
  | p :: q :: rest => (p, some (pyJoin sep (q :: rest)))

/-- The explanation extracted from the clean lines: join, strip, and take
the text before the first blank line. -/
def diagExplanation (clean_lines : List String) : String :=
  pyStrip (pySplitOnce "\n\n" (pyStrip (pyJoin "\n" clean_lines))).1

/-- Does `line.strip()` start with one or more digits followed by a dot
(`re.match(r"^\d+\.", line.strip())`)? -/
def isNumberedStep (line : String) : Bool :=
  let ds := (pyStrip line).data
  !(ds.takeWhile Char.isDigit).isEmpty &&
    (ds.dropWhile Char.isDigit).headD ' ' = '.'

/-- `re.sub(r"^\d+\.\s*", "", line)`: remove a leading digit run, dot and
following whitespace, when present at the very start of `line` (the
original line, not the stripped one — as in the source). -/
def stripStepNumber (line : String) : String :=
  match line.data.takeWhile Char.isDigit, line.data.dropWhile Char.isDigit with
  | _ :: _, '.' :: rest => String.mk (rest.dropWhile pyIsSpace)
  | _, _ => line

/-- The numbered steps extracted from the second paragraph of the clean
text. -/
def diagSteps (clean_lines : List String) : List String :=
  let steps_raw :=
    ((pySplitOnce "\n\n" (pyStrip (pyJoin "\n" clean_lines))).2).getD ""
  (pySplitlines steps_raw).filterMap
    (fun line =>
      if isNumberedStep line then some (pyStrip (stripStepNumber line))
      else none)

/-- The pure post-processing tail of `ai_service.diagnose_error`: from the
raw LLM text to the returned record. -/
def diagnose_error_post (raw : String) : Diagnosis :=
  let st := diagScan (pySplitlines raw)
  { explanation := diagExplanation st.2
    steps := diagSteps st.2
    auto_fix := st.1 }

/-! ## Error taxonomy (src/app/core/exceptions.py)

The source raises dynamically-typed exception classes; the embedding is a
closed inductive whose constructors are the exception classes reachable
from the core, each carrying the message (and, for `GitCommandError`, the
captured stderr). -/

/-- The GitSage exception classes raised by the core layer. -/
inductive GitSageError where
  | invalidPathError (message : String)
  | repoNotFoundError (message : String)
  | gitCommandError (message : String) (stderr : String)
deriving Repr, DecidableEq

/-- The Python class name of an exception value: this is the only "kind"
information the source attaches to a failure. -/
def GitSageError.className : GitSageError → String
  | .invalidPathError _ => "InvalidPathError"
  | .repoNotFoundError _ => "RepoNotFoundError"
  | .gitCommandError _ _ => "GitCommandError"

/-- The exception class of a failed computation (`none` on success). -/
def errClassOf {α : Type} : Except GitSageError α → Option String
  | .error e => some e.className
  | .ok _ => none

/-! ## Repository path resolution (src/app/core/git_runner.py)

`_resolve_repo` consults the filesystem (`Path.resolve`, `Path.exists`);
the filesystem is embedded as an explicit model passed to the function:
`canonicalize` is the OS path canonicalization performed by
`Path(raw).resolve()`, and `pathExists` is `Path.exists`. -/

/-- A filesystem model: canonicalization and existence, as observed at
the moment of the call. -/
structure FSModel where
  canonicalize : String → String
  pathExists : String → Bool

/-- `settings.DEFAULT_REPO_PATH`'s declared default (src/app/core/config.py). -/
def DEFAULT_REPO_PATH : String := "."

/-- Python's `repo_path or settings.DEFAULT_REPO_PATH`: `None` and the
empty string are both falsy. -/
def effectiveRepoPath (repoPath : Option String) : String :=
  match repoPath with
  | none => DEFAULT_REPO_PATH
  | some s => if s = "" then DEFAULT_REPO_PATH else s

/-- `git_runner._resolve_repo`: canonicalize, require existence
(`InvalidPathError` otherwise), require a `.git` subdirectory
(`RepoNotFoundError` otherwise), and return the canonical directory.
`resolved / ".git"` is embedded as appending `"/.git"`. -/
def _resolve_repo (fs : FSModel) (repoPath : Option String) : Except GitSageError String :=
  let raw := effectiveRepoPath repoPath
  let resolved := fs.canonicalize raw
  if !(fs.pathExists resolved) then
    .error (.invalidPathError ("Path does not exist: " ++ resolved))
  else if !(fs.pathExists (resolved ++ "/.git")) then
    .error (.repoNotFoundError "Not a valid git repository.")
  else
    .ok resolved

/-! ## Git command executor outcome mapping (src/app/core/git_runner.py)

`run_git` spawns a subprocess; the subprocess itself is outside the
embedding, so its observable outcome is a value of `ProcOutcome` and the
embedding covers how `run_git` maps that outcome to a return value or a
raised exception (lines 67-94 of git_runner.py). -/

/-- The possible outcomes of `subprocess.run` under `run_git`'s options. -/
inductive ProcOutcome where
  | timeoutExpired
  | fileNotFound
  | completed (returncode : Int) (stdout : String) (stderr : String)
deriving Repr, DecidableEq

/-- The outcome-to-result mapping of `git_runner.run_git`: a timeout and a
missing executable each raise `GitCommandError` (with fixed messages and
empty stderr); a non-zero exit raises `GitCommandError` carrying the
trimmed stderr and the first two arguments; a zero exit returns stdout. -/
def run_git_outcome (args : List String) (out : ProcOutcome) : Except GitSageError String :=
  match out with
  | .timeoutExpired => .error (.gitCommandError "Git command timed out." "")
  | .fileNotFound =>
    .error (.gitCommandError "git executable not found. Is git installed?" "")
  | .completed returncode stdout stderr =>
    if returncode ≠ 0 then
      .error (.gitCommandError
        ("Git command failed: " ++ pyJoin " " (args.take 2))
        (pyStrip stderr))
    else
      .ok stdout

/-! ## Remote operations (src/app/services/remote_service.py and
src/app/api/remotes.py) -/

/-- `RemoteActionRequest.validate_remote` (the pydantic field validator in
the API layer): reject the empty string, a leading `-`, or a space. -/
def validate_remote (v : String) : Except String String :=
  if v = "" || pyStartsWith v "-" || v.data.contains ' ' then
    .error "Invalid remote name."
  else
    .ok v

/-- The argument vector `remote_service.fetch` passes to `run_git`:
the remote name is used as-is, with no validation in the service. -/
def remote_fetch_args (remote : String) : List String :=
  ["fetch", "--prune", remote]

/-- The argument vector `remote_service.pull` passes to `run_git`
(`if branch:` appends only a truthy, i.e. nonempty, branch). -/
def remote_pull_args (remote : String) (branch : Option String) : List String :=
  ["pull", remote] ++
    (match branch with
     | some b => if b = "" then [] else [b]
     | none => [])

/-- The argument vector `remote_service.push` passes to `run_git`. -/
def remote_push_args (remote : String) (branch : Option String) : List String :=
  ["push", remote] ++
    (match branch with
     | some b => if b = "" then [] else [b]
     | none => [])

/-! ## Status parsing (src/app/services/status_service.py) -/

/-- `status_service.FileStatus`: the two porcelain state codes are single
characters in `XY`-format lines, so they are embedded as `Char`. -/
structure FileStatus where
  path : String
  index_status : Char
  work_status : Char
deriving Repr, DecidableEq

/-- `FileStatus.is_staged`: the index code is none of `?`, space, `!`. -/
def FileStatus.is_staged (f : FileStatus) : Bool :=
  !(f.index_status = '?' || f.index_status = ' ' || f.index_status = '!')

/-- `FileStatus.is_unstaged`: the work-tree code is neither space nor `!`. -/
def FileStatus.is_unstaged (f : FileStatus) : Bool :=
  !(f.work_status = ' ' || f.work_status = '!')

/-- One iteration of `status_service._parse_porcelain`: skip lines shorter
than four characters; otherwise the first two characters are the state
codes, character 3 onward is the path, and rename notation is resolved by
keeping the text after the last `" -> "`. -/
def parseStatusLine (line : String) : Option FileStatus :=
  if line.length < 4 then none
  else
    match line.data with
    | x :: y :: _ :: rest =>
      some { path := (pySplit (String.mk rest) " -> ").getLastD ""
             index_status := x
             work_status := y }
    | _ => none  -- unreachable: `line.length < 4` was ruled out

/-- `status_service._parse_porcelain`. -/
def _parse_porcelain (output : String) : List FileStatus :=
  (pySplitlines output).filterMap parseStatusLine

/-- The staged list of `status_service.get_status`. -/
def stagedOf (files : List FileStatus) : List FileStatus :=
  files.filter (fun f =>
    f.is_staged && !(f.index_status = '?' || f.index_status = '!'))

/-- The unstaged list of `status_service.get_status`. -/
def unstagedOf (files : List FileStatus) : List FileStatus :=
  files.filter (fun f => f.is_unstaged && !(f.index_status = '?'))

/-- The untracked list of `status_service.get_status`. -/
def untrackedOf (files : List FileStatus) : List FileStatus :=
  files.filter (fun f => f.index_status = '?' && f.work_status = '?')

/-- `status_service.RepoStatus`. -/
structure RepoStatus where
  branch : String
  ahead : Int
  behind : Int
  staged : List FileStatus
  unstaged : List FileStatus
  untracked : List FileStatus
deriving Repr, DecidableEq

/-- The `for segment in info.split(",")` loop of `get_status`: each
stripped segment starting with `ahead`/`behind` overwrites that counter
with `int(segment.split()[-1])`; a failing `int(...)` raises
`ValueError`. -/
def parseAheadBehind (info : String) : Except String (Int × Int) :=
  (pySplit info ",").foldlM
    (fun (ab : Int × Int) segment =>
      let segment := pyStrip segment
      if pyStartsWith segment "ahead" then
        match pyInt ((pySplitWs segment).getLastD "") with
        | some n => .ok (n, ab.2)
        | none => .error "ValueError: invalid literal for int()"
      else if pyStartsWith segment "behind" then
        match pyInt ((pySplitWs segment).getLastD "") with
        | some n => .ok (ab.1, n)
        | none => .error "ValueError: invalid literal for int()"
      else .ok ab)
    (0, 0)

/-- The bracketed ahead/behind part of the header: `"[" in header` probes
for `[`, and `header.index("]")` raises `ValueError` when `]` is absent;
the slice `header[i+1:j]` is empty when `j ≤ i+1`. -/
def parseHeaderCounts (header : String) : Except String (Int × Int) :=
  match header.data.indexOf? '[' with
  | none => .ok (0, 0)
  | some i =>
    match header.data.indexOf? ']' with
    | none => .error "ValueError: substring not found"
    | some j =>
      parseAheadBehind (String.mk ((header.data.drop (i + 1)).take (j - (i + 1))))

/-- Does the raw output lack a `## ` header line (first line absent or not
starting with `## `)? -/
def headerAbsent (raw : String) : Bool :=
  match pySplitlines raw with
  | [] => true
  | l :: _ => !(pyStartsWith l "## ")

/-- The parsing body of `status_service.get_status` (lines 56-89), as a
function of the raw porcelain stdout: header handling with defaults
`("unknown", 0, 0)`, then classification of the files parsed from
`"\n".join(lines[1:])`.  A malformed bracketed header propagates the
`ValueError` the source would raise. -/
def parse_status_output (raw : String) : Except String RepoStatus :=
  let lines := pySplitlines raw
  let headerRes : Except String (String × Int × Int) :=
    match lines with
    | [] => .ok ("unknown", 0, 0)
    | l0 :: _ =>
      if pyStartsWith l0 "## " then
        let header := pyDrop l0 3
        match parseHeaderCounts header with
        | .ok (a, b) => .ok ((pySplit header "...").headD "", a, b)
        | .error e => .error e
      else .ok ("unknown", 0, 0)
  match headerRes with
  | .error e => .error e
  | .ok (branch, ahead, behind) =>
    let all_files := _parse_porcelain (pyJoin "\n" (lines.drop 1))
    .ok { branch, ahead, behind
          staged := stagedOf all_files
          unstaged := unstagedOf all_files
          untracked := untrackedOf all_files }

/-! ## Commit log (src/app/services/commit_service.py) -/

/-- The record-separator byte and `--format` string of
`commit_service.get_log`. -/
def logFormat : String :=
  pyJoin "\x1f" ["%H", "%h", "%an", "%ae", "%ci", "%s"]

/-- The argument-vector construction of `commit_service.get_log` (lines
55-73): the limit is clamped to `1..200` before becoming the `-<n>`
argument, and a truthy branch is validated with `_is_valid_ref_name`
(`ValueError` on failure) and appended. -/
def get_log_args (limit : Int) (branch : Option String) : Except String (List String) :=
  let limit := min (max 1 limit) 200
  let args := ["log", "--format=" ++ logFormat, "-" ++ toString limit]
  match branch with
  | none => .ok args
  | some b =>
    if b = "" then .ok args  -- `if branch:` — the empty string is falsy
    else if !(_is_valid_ref_name b) then
      .error ("Invalid branch name: " ++ b)
    else .ok (args ++ [b])

/-! ## Claim theorems -/

/-- C1: the command-safety whitelist accepts exactly the literal strings
`"git fetch"`, `"git fetch origin"`, `"git stash"`, `"git stash pop"` and
`"git merge --abort"` among the test inputs, rejects
`"git fetch && rm -rf /"`, `"git push origin --force"`,
`"git reset --hard HEAD~5"` and the empty string, and in general accepts a
string exactly when one of the fixed patterns matches it end to end (so
every string not fully matched — chained commands and non-git programs
included — is rejected). -/
theorem C1_whitelist_exact :
    _is_safe_auto_fix "git fetch" = true ∧
    _is_safe_auto_fix "git fetch origin" = true ∧
    _is_safe_auto_fix "git stash" = true ∧
    _is_safe_auto_fix "git stash pop" = true ∧
    _is_safe_auto_fix "git merge --abort" = true ∧
    _is_safe_auto_fix "git fetch && rm -rf /" = false ∧
    _is_safe_auto_fix "git push origin --force" = false ∧
    _is_safe_auto_fix "git reset --hard HEAD~5" = false ∧
    _is_safe_auto_fix "" = false ∧
    ∀ cmd : String,
      _is_safe_auto_fix cmd = true ↔
        ∃ pattern ∈ _SAFE_AUTO_FIX_PATTERNS,
          reFullmatch pattern (pyStrip cmd) = true := by
  refine ⟨by decide, by decide, by decide, by decide, by decide, by decide,
    by decide, by decide, by decide, fun cmd => ?_⟩
  simp only [_is_safe_auto_fix]
  exact List.any_eq_true

/-- C7: the porcelain line `"M  file.txt"` puts `file.txt` in the staged
list and in neither the unstaged nor the untracked list; `"?? newfile.txt"`
is untracked only; a file is untracked exactly when both state codes are
`?`; and the rename line `"R  old.txt -> new.txt"` parses to the path
`"new.txt"`. -/
theorem C7_porcelain_classification :
    _parse_porcelain "M  file.txt" = [⟨"file.txt", 'M', ' '⟩] ∧
    stagedOf (_parse_porcelain "M  file.txt") = [⟨"file.txt", 'M', ' '⟩] ∧
    unstagedOf (_parse_porcelain "M  file.txt") = [] ∧
    untrackedOf (_parse_porcelain "M  file.txt") = [] ∧
    _parse_porcelain "?? newfile.txt" = [⟨"newfile.txt", '?', '?'⟩] ∧
    stagedOf (_parse_porcelain "?? newfile.txt") = [] ∧
    unstagedOf (_parse_porcelain "?? newfile.txt") = [] ∧
    untrackedOf (_parse_porcelain "?? newfile.txt") = [⟨"newfile.txt", '?', '?'⟩] ∧
    (∀ (files : List FileStatus) (f : FileStatus),
      f ∈ untrackedOf files ↔
        f ∈ files ∧ f.index_status = '?' ∧ f.work_status = '?') ∧
    _parse_porcelain "R  old.txt -> new.txt" = [⟨"new.txt", 'R', ' '⟩] := by
  refine ⟨by decide, by decide, by decide, by decide, by decide, by decide,
    by decide, by decide, fun files f => ?_, by decide⟩
  simp [untrackedOf, List.mem_filter, and_assoc]

/-- C8 (amended): the header
`"## main...origin/main [ahead 2, behind 1]"` yields branch `"main"`,
`ahead = 2`, `behind = 1`; and whenever the first line is absent or does
not start with `"## "`, the branch defaults to `"unknown"` with
`ahead = behind = 0` and the remaining lines are still classified.  (A
`"## "` header whose bracketed part is malformed instead raises, see the
counterexample.) -/
theorem C8_status_header :
    parse_status_output "## main...origin/main [ahead 2, behind 1]\nM  file.txt" =
      .ok ⟨"main", 2, 1, [⟨"file.txt", 'M', ' '⟩], [], []⟩ ∧
    ∀ raw : String, headerAbsent raw = true →
      parse_status_output raw =
        .ok ⟨"unknown", 0, 0,
          stagedOf (_parse_porcelain (pyJoin "\n" ((pySplitlines raw).drop 1))),
          unstagedOf (_parse_porcelain (pyJoin "\n" ((pySplitlines raw).drop 1))),
          untrackedOf (_parse_porcelain (pyJoin "\n" ((pySplitlines raw).drop 1)))⟩ := by
  refine ⟨by rfl, fun raw h => ?_⟩
  unfold headerAbsent at h
  unfold parse_status_output
  cases hl : pySplitlines raw with
  | nil => simp [hl]
  | cons l0 rest =>
    rw [hl] at h
    simp only [Bool.not_eq_true'] at h
    simp [hl, h]

/-- C8 counterexample: a present-but-malformed `## ` header does not fall
back to the defaults — parsing fails with the `ValueError` the source
raises (a `[` with no closing `]`, or a non-integer count). -/
theorem C8_counterexample_malformed_header :
    parse_status_output "## main...origin/main [ahead 2" =
      .error "ValueError: substring not found" ∧
    parse_status_output "## main [ahead two]" =
      .error "ValueError: invalid literal for int()" := ⟨by rfl, by rfl⟩

/-- C10: for every integer limit, the commit-log operation clamps the
count to `min(max(1, limit), 200)` before it becomes the `-<n>` process
argument, so the count is always between 1 and 200. -/
theorem C10_log_limit_clamped :
    ∀ limit : Int,
      1 ≤ min (max 1 limit) 200 ∧
      min (max 1 limit) 200 ≤ 200 ∧
      get_log_args limit none =
        .ok ["log", "--format=" ++ logFormat,
          "-" ++ toString (min (max 1 limit) 200)] ∧
      ∀ b : String, b ≠ "" → _is_valid_ref_name b = true →
        get_log_args limit (some b) =
          .ok ["log", "--format=" ++ logFormat,
            "-" ++ toString (min (max 1 limit) 200), b] := by
  intro limit
  refine ⟨le_min (le_max_left 1 limit) (by norm_num), min_le_right _ _,
    rfl, fun b hb hv => ?_⟩
  simp [get_log_args, hb, hv]

/-- C6 (amended): a timeout, a missing executable and a non-zero exit all
raise the same exception class `GitCommandError`; the three cases are
distinguishable only by message (timeout: `"Git command timed out."` with
empty stderr; missing executable:
`"git executable not found. Is git installed?"`; non-zero exit:
`"Git command failed: <first two args>"` carrying the trimmed stderr), and
a zero exit returns stdout. -/
theorem C6_runner_outcomes :
    ∀ (args : List String) (rc : Int) (so se : String),
      run_git_outcome args .timeoutExpired =
        .error (.gitCommandError "Git command timed out." "") ∧
      run_git_outcome args .fileNotFound =
        .error (.gitCommandError "git executable not found. Is git installed?" "") ∧
      (rc ≠ 0 → run_git_outcome args (.completed rc so se) =
        .error (.gitCommandError
          ("Git command failed: " ++ pyJoin " " (args.take 2)) (pyStrip se))) ∧
      run_git_outcome args (.completed 0 so se) = .ok so ∧
      ("Git command timed out." ≠ "git executable not found. Is git installed?") := by
  intro args rc so se
  refine ⟨rfl, rfl, fun h => ?_, ?_, by decide⟩
  · simp [run_git_outcome, h]
  · simp [run_git_outcome]

/-- C6 counterexample: there are no distinct `CommandTimeout` and
`CommandUnavailable` failure kinds — the timeout, the missing executable
and the non-zero exit all produce the one exception class
`GitCommandError`. -/
theorem C6_counterexample_single_class :
    errClassOf (run_git_outcome ["status"] .timeoutExpired) = some "GitCommandError" ∧
    errClassOf (run_git_outcome ["status"] .fileNotFound) = some "GitCommandError" ∧
    errClassOf (run_git_outcome ["status"] (.completed 1 "" "boom")) =
      some "GitCommandError" ∧
    errClassOf (run_git_outcome ["status"] .timeoutExpired) =
      errClassOf (run_git_outcome ["status"] (.completed 1 "" "boom")) :=
  ⟨rfl, rfl, by rfl, by rfl⟩

/-- C5: resolving a repository fails with `InvalidPathError` when the
canonicalized path does not exist, fails with `RepoNotFoundError` (a
distinct kind) when it exists but has no `.git` subdirectory, and
otherwise returns the canonical directory. -/
theorem C5_resolve_repo :
    ∀ (fs : FSModel) (p : Option String),
      (fs.pathExists (fs.canonicalize (effectiveRepoPath p)) = false →
        _resolve_repo fs p = .error (.invalidPathError
          ("Path does not exist: " ++ fs.canonicalize (effectiveRepoPath p)))) ∧
      (fs.pathExists (fs.canonicalize (effectiveRepoPath p)) = true →
        fs.pathExists (fs.canonicalize (effectiveRepoPath p) ++ "/.git") = false →
        _resolve_repo fs p = .error (.repoNotFoundError "Not a valid git repository.")) ∧
      (fs.pathExists (fs.canonicalize (effectiveRepoPath p)) = true →
        fs.pathExists (fs.canonicalize (effectiveRepoPath p) ++ "/.git") = true →
        _resolve_repo fs p = .ok (fs.canonicalize (effectiveRepoPath p))) := by
  intro fs p
  refine ⟨fun h => ?_, fun h1 h2 => ?_, fun h1 h2 => ?_⟩ <;>
    simp [_resolve_repo, *]

/-- C4 (amended): the remote-name validator — rejecting exactly the empty
string, names starting with `-`, and names containing a space — lives in
the API request model, not in the core; the core `fetch`/`pull`/`push`
operations pass the remote name into the process argument vector
unvalidated. -/
theorem C4_remote_validation :
    ∀ r : String,
      ((validate_remote r = .error "Invalid remote name.") ↔
        (r = "" ∨ pyStartsWith r "-" = true ∨ r.data.contains ' ' = true)) ∧
      remote_fetch_args r = ["fetch", "--prune", r] ∧
      remote_pull_args r none = ["pull", r] ∧
      remote_push_args r none = ["push", r] := by
  intro r
  refine ⟨?_, rfl, rfl, rfl⟩
  unfold validate_remote
  split
  next h =>
    simp only [Bool.or_eq_true, decide_eq_true_eq, or_assoc] at h
    exact iff_of_true rfl h
  next h =>
    simp only [Bool.or_eq_true, decide_eq_true_eq, not_or, or_assoc] at h
    constructor
    · intro hh
      exact absurd hh (by simp)
    · intro hh
      rcases hh with h1 | h1 | h1
      · exact absurd h1 h.1
      · exact absurd h1 h.2.1
      · exact absurd h1 h.2.2

/-- C4 counterexample: for the invalid remote name `"-rf"` the core
operations reject nothing — they place the name directly in the process
argument vector; only the API-layer request validator rejects it. -/
theorem C4_counterexample_core_passes_bad_remote :
    remote_fetch_args "-rf" = ["fetch", "--prune", "-rf"] ∧
    remote_pull_args "-rf" none = ["pull", "-rf"] ∧
    remote_push_args "-rf" none = ["push", "-rf"] ∧
    validate_remote "-rf" = .error "Invalid remote name." :=
  ⟨rfl, rfl, rfl, by rfl⟩

/-- If a pattern starting with `c` occurs as a substring, `c` occurs as a
character. -/
theorem mem_of_listContainsSub {s : List Char} {c : Char} {pat : List Char}
    (h : listContainsSub s (c :: pat) = true) : c ∈ s := by
  induction s with
  | nil => simp [listContainsSub] at h
  | cons a t ih =>
    rw [listContainsSub, List.isPrefixOf] at h
    have h' : (c = a ∧ pat.isPrefixOf t = true) ∨ listContainsSub t (c :: pat) = true := by
      simpa using h
    rcases h' with ⟨hca, _⟩ | h'
    · exact hca ▸ List.mem_cons_self _ _
    · exact List.mem_cons_of_mem _ (ih h')

/-- A name built from characters of the ordinary alphabet cannot contain a
substring whose first character is outside that alphabet. -/
theorem not_containsSub_of_ordinary {name : String} {c : Char} {pat : List Char}
    (hall : name.data.all ordinaryRefChar = true)
    (hc : ordinaryRefChar c = false) :
    listContainsSub name.data (c :: pat) = false := by
  cases h : listContainsSub name.data (c :: pat) with
  | false => rfl
  | true =>
    have hmem := mem_of_listContainsSub h
    have := List.all_eq_true.mp hall c hmem
    rw [hc] at this
    cases this

/-- C3 counterexample: the claim fails on the code in both directions.
`"a\rb"` contains whitespace (a carriage return) yet is accepted, and
`"-a"` is a nonempty short name built only from the claimed alphabet
(letters, digits, `/`, `-`, `_`) yet is rejected. -/
theorem C3_counterexample_whitespace_and_dash :
    _is_valid_ref_name "a\rb" = true ∧
    ('\r').isWhitespace = true ∧
    ("-a" ≠ "") ∧
    "-a".length < 250 ∧
    "-a".data.all ordinaryRefChar = true ∧
    _is_valid_ref_name "-a" = false := by
  decide

/-- C3 (amended): the ref-name validator rejects every name that is empty,
longer than 250 characters, contains one of the forbidden substrings
(space, tab, newline, NUL, backslash, `..`, `~`, `^`, `:`, `?`, `*`, `[`)
or starts with `-`; and it accepts every nonempty name under 250
characters built only from letters, digits, `/`, `-`, `_` that does not
start with `-`. -/
theorem C3_ref_name_validator :
    (∀ name : String,
      (name = "" ∨ 250 < name.length ∨
        (∃ f ∈ refForbiddenSubstrings, pyContains name f = true) ∨
        pyStartsWith name "-" = true) →
      _is_valid_ref_name name = false) ∧
    (∀ name : String,
      name ≠ "" → name.length < 250 → pyStartsWith name "-" = false →
      name.data.all ordinaryRefChar = true →
      _is_valid_ref_name name = true) := by
  constructor
  · intro name h
    unfold _is_valid_ref_name
    split
    · rfl
    next hcond =>
      rcases h with h | h | ⟨f, hf, hsub⟩ | h
      · exact absurd (Or.inl h) hcond
      · exact absurd (Or.inr h) hcond
      · have hany : refForbiddenSubstrings.any (fun c => pyContains name c) = true :=
          List.any_eq_true.mpr ⟨f, hf, hsub⟩
        simp [hany]
      · simp [h]
  · intro name h0 h1 h2 h3
    unfold _is_valid_ref_name
    rw [if_neg]
    · have hany : refForbiddenSubstrings.any (fun c => pyContains name c) = false := by
        apply List.any_eq_false.mpr
        intro f hf
        fin_cases hf <;>
          exact fun hcontr =>
            absurd (List.all_eq_true.mp h3 _ (mem_of_listContainsSub hcontr))
              (by decide)
      simp [hany, h2]
    · rintro (h | h)
      · exact h0 h
      · omega

/-- `dropWhile` is idempotent. -/
theorem dropWhile_idem (p : Char → Bool) (l : List Char) :
    (l.dropWhile p).dropWhile p = l.dropWhile p := by
  induction l with
  | nil => rfl
  | cons a t ih =>
    cases h : p a with
    | true => simp [List.dropWhile_cons, h, ih]
    | false => simp [List.dropWhile_cons, h]

/-- A list with no leading `p`-character keeps that property after its
trailing `p`-characters are removed. -/
theorem dropWhile_of_rstrip {p : Char → Bool} {l : List Char}
    (h : l.dropWhile p = l) :
    (l.reverse.dropWhile p).reverse.dropWhile p = (l.reverse.dropWhile p).reverse := by
  have hpre : (l.reverse.dropWhile p).reverse <+: l := by
    apply List.reverse_suffix.mp
    rw [List.reverse_reverse]
    exact List.dropWhile_suffix p
  cases hy : (l.reverse.dropWhile p).reverse with
  | nil => rfl
  | cons b ys =>
    have hbl : ∃ t, l = b :: t := by
      rcases hpre with ⟨t, ht⟩
      rw [hy] at ht
      exact ⟨ys ++ t, by simpa using ht.symm⟩
    rcases hbl with ⟨t, hl⟩
    have hpb : p b = false := by
      cases hb : p b with
      | false => rfl
      | true =>
        exfalso
        rw [hl, List.dropWhile_cons, hb] at h
        have hlen := congrArg List.length h
        have := (List.dropWhile_sublist (l := t) p).length_le
        simp at hlen
        omega
    simp [List.dropWhile_cons, hpb]

/-- `stripList` is idempotent. -/
theorem stripList_idem (p : Char → Bool) (l : List Char) :
    stripList p (stripList p l) = stripList p l := by
  have hd : (l.dropWhile p).dropWhile p = l.dropWhile p := dropWhile_idem p l
  have h1 : (stripList p l).dropWhile p = stripList p l := dropWhile_of_rstrip hd
  show (((stripList p l).dropWhile p).reverse.dropWhile p).reverse = stripList p l
  rw [h1]
  unfold stripList
  rw [List.reverse_reverse, dropWhile_idem]

/-- Characters of `stripList p l` are characters of `l`. -/
theorem mem_of_mem_stripList {c : Char} {p : Char → Bool} {l : List Char}
    (h : c ∈ stripList p l) : c ∈ l := by
  unfold stripList at h
  rw [List.mem_reverse] at h
  have h2 := (List.dropWhile_sublist (l := (l.dropWhile p).reverse) p).subset h
  rw [List.mem_reverse] at h2
  exact (List.dropWhile_sublist p).subset h2

/-- C9: the commit-message sanitizer is idempotent — stripping control
characters and trimming whitespace twice gives the same result as doing
it once. -/
theorem C9_sanitize_idempotent :
    ∀ message : String,
      _sanitize_commit_message (_sanitize_commit_message message) =
        _sanitize_commit_message message := by
  intro m
  show String.mk (stripList pyIsSpace
      ((stripList pyIsSpace (m.data.filter (fun c => !(isStrippedCtrl c)))).filter
        (fun c => !(isStrippedCtrl c)))) =
    String.mk (stripList pyIsSpace (m.data.filter (fun c => !(isStrippedCtrl c))))
  have hclean :
      (stripList pyIsSpace (m.data.filter (fun c => !(isStrippedCtrl c)))).filter
        (fun c => !(isStrippedCtrl c)) =
      stripList pyIsSpace (m.data.filter (fun c => !(isStrippedCtrl c))) := by
    apply List.filter_eq_self.mpr
    intro a ha
    exact List.mem_filter.mp (mem_of_mem_stripList ha) |>.2
  rw [hclean, stripList_idem]

/-- The scan invariant: whatever the starting state, after folding any
line list the recorded auto-fix (if any) passes the whitelist and no
clean line carries the `AUTO_FIX:` marker. -/
theorem diagScan_foldl_invariant (lines : List String) :
    ∀ st : Option String × List String,
      st.1.all _is_safe_auto_fix = true →
      st.2.all (fun l => !(pyStartsWith l "AUTO_FIX:")) = true →
      (lines.foldl diagStep st).1.all _is_safe_auto_fix = true ∧
      (lines.foldl diagStep st).2.all (fun l => !(pyStartsWith l "AUTO_FIX:")) = true := by
  induction lines with
  | nil => exact fun st h1 h2 => ⟨h1, h2⟩
  | cons line rest ih =>
    intro st h1 h2
    rw [List.foldl_cons]
    apply ih
    · unfold diagStep
      cases hm : pyStartsWith line "AUTO_FIX:" with
      | true =>
        simp only [if_pos rfl, hm, if_true]
        cases hs : _is_safe_auto_fix (pyStrip (pyDrop line "AUTO_FIX:".length)) with
        | true => simpa [Option.all] using hs
        | false => simpa using h1
      | false => simpa [hm] using h1
    · unfold diagStep
      cases hm : pyStartsWith line "AUTO_FIX:" with
      | true => simpa [hm] using h2
      | false =>
        simp only [hm, Bool.false_eq_true, if_false]
        rw [List.all_append]
        simp [h2, hm]

/-- C2: for every raw AI response, the diagnosis record's `auto_fix` field
is `none` or a string passing the command-safety whitelist (a candidate
failing the whitelist never appears there); no line of the scan's clean
lines starts with `AUTO_FIX:`; and the returned explanation and steps are
computed from those clean lines only, so `AUTO_FIX:`-marked lines are
excluded from both. -/
theorem C2_diagnose_auto_fix_guarded :
    ∀ raw : String,
      ((diagnose_error_post raw).auto_fix.all _is_safe_auto_fix = true) ∧
      ((diagScan (pySplitlines raw)).2.all
        (fun l => !(pyStartsWith l "AUTO_FIX:")) = true) ∧
      (diagnose_error_post raw).explanation =
        diagExplanation (diagScan (pySplitlines raw)).2 ∧
      (diagnose_error_post raw).steps =
        diagSteps (diagScan (pySplitlines raw)).2 := by
  intro raw
  obtain ⟨h1, h2⟩ :=
    diagScan_foldl_invariant (pySplitlines raw) (none, []) rfl rfl
  exact ⟨h1, h2, rfl, rfl⟩
